import Mathlib

/-!
Shallow embedding of the upload-analyze client in `src/src/App.tsx`
(single-page tuberculosis X-ray analysis client).

The component holds four pieces of view state (`selectedImage`, `result`,
`isLoading`, `error`) plus the value of the hidden file input control.
Event handlers (`handleImageUpload`, `handleAnalyze`, `handleDrop`,
`handleDragOver`) are modelled as pure state-transition functions: the
asynchronous parts (the FileReader result and the fetch outcome) are
passed in explicitly as values of small outcome types, so each handler
is a function from the pre-state and the outcome to the post-state.
JSON values returned by the server are modelled by an inductive type,
since the TypeScript type ascriptions are erased at runtime and the code only
checks field presence, not field types.
-/

namespace TBApp

/-- App.tsx line 4: maximum accepted file size in bytes. -/
def MAX_FILE_SIZE : Nat := 10 * 1024 * 1024

/-- App.tsx line 5: the accepted declared MIME types. -/
def ALLOWED_TYPES : List String := ["image/jpeg", "image/png", "image/jpg", "image/webp"]

/-- App.tsx line 6: the request timeout in milliseconds. -/
def API_TIMEOUT : Nat := 300000

/-- App.tsx line 7: the fixed prediction endpoint. -/
def API_URL : String := "https://8004-01jmw8ynkyfpm5jpz096pk52m6.cloudspaces.litng.ai/predict/"

/-- A runtime JSON value, as produced by `response.json()`.  Numbers are
modelled as rationals.  Object fields are an association list; duplicate
keys are assumed already resolved by the JSON parser. -/
inductive Json where
  | null
  | bool (b : Bool)
  | num (q : Rat)
  | str (s : String)
  | arr (elems : List Json)
  | obj (fields : List (String × Json))

/-- JavaScript property access `data.key` for the fields the code reads:
it yields the field of an object and `undefined` (here `none`) on every
other JSON value. -/
def Json.getField : Json → String → Option Json
  | .obj fields, key => fields.lookup key
  | _, _ => none

/-- JavaScript truthiness of a JSON value, as used by the check `!data`. -/
def Json.truthy : Json → Bool
  | .null => false
  | .bool b => b
  | .num q => decide (q ≠ 0)
  | .str s => decide (s ≠ "")
  | .arr _ => true
  | .obj _ => true

/-- The shape stored in the `result` state (App.tsx line 11).  The
TypeScript ascription says string and number, but at runtime the fields
hold whatever the parsed JSON held, so they are modelled as `Json`. -/
structure Resultado where
  predicao : Json
  probabilidade : Json

/-- The view state of the component (App.tsx lines 10-14) together with
the value of the hidden file input control (`fileInputRef`). -/
structure AppState where
  selectedImage : Option String
  result : Option Resultado
  isLoading : Bool
  error : Option String
  inputValue : String

/-- App.tsx lines 16-24, `validateFile`: returns a rejection message or
`none` (valid).  It reads only the declared MIME type and the byte size,
and is a pure function of those two values. -/
def validateFile (declaredType : String) (size : Nat) : Option String :=
  if !(ALLOWED_TYPES.contains declaredType) then
    some "Tipo de arquivo inválido. Por favor, envie uma imagem JPG, PNG ou WebP."
  else if size > MAX_FILE_SIZE then
    some "Arquivo muito grande. O tamanho máximo permitido é 5MB."
  else
    none

/-- The metadata of a candidate file that the handlers inspect: the
declared MIME type (`file.type`) and the byte size (`file.size`). -/
structure FileInfo where
  declaredType : String
  size : Nat

/-- Outcome of the asynchronous `FileReader.readAsDataURL` read: either
the resulting data URI (the `onloadend` callback) or a read failure (the
`onerror` callback). -/
inductive ReadOutcome where
  | success (dataUri : String)
  | failure

/-- App.tsx lines 26-44, `handleImageUpload`: the file-picker change
handler.  `file` is `event.target.files[0]` (absent when the picker
delivered no file); `read` is the outcome of the FileReader read, only
reached when validation passes.  The handler first clears `error` and
`result` unconditionally; on a validation failure it sets the message
and clears the input control value.  The success continuation at line
40 is attached to `onloadend`, which fires after successful and failed
reads alike: on success `reader.result` is the data URI and replaces
`selectedImage`; after a failed read `onerror` first stores the read
error message and `onloadend` then runs with `reader.result = null`, so
`selectedImage` is set to null and the previous preview is wiped. -/
def handleImageUpload (s : AppState) (file : Option FileInfo) (read : ReadOutcome) :
    AppState :=
  let s1 : AppState := { s with error := none, result := none }
  match file with
  | none => s1
  | some f =>
    match validateFile f.declaredType f.size with
    | some msg => { s1 with error := some msg, inputValue := "" }
    | none =>
      match read with
      | .success uri => { s1 with selectedImage := some uri }
      | .failure =>
        { s1 with error := some "Erro ao ler o arquivo. Por favor, tente novamente.",
                  selectedImage := none }

/-- App.tsx lines 106-124, `handleDrop`: the drop handler.  Unlike the
picker handler it does not pre-clear `error` and `result` and does not
touch the input control value on rejection.  Its `onloadend` callback
(lines 117-120) runs `setSelectedImage(reader.result)` and
`setResult(null)`, and `onloadend` fires after successful and failed
reads alike: on success `selectedImage` becomes the data URI; after a
failed read `onerror` first stores the read error message and
`onloadend` then runs with `reader.result = null`, so `selectedImage`
is set to null and `result` is cleared as well. -/
def handleDrop (s : AppState) (file : Option FileInfo) (read : ReadOutcome) :
    AppState :=
  match file with
  | none => s
  | some f =>
    match validateFile f.declaredType f.size with
    | some msg => { s with error := some msg }
    | none =>
      match read with
      | .success uri => { s with selectedImage := some uri, result := none }
      | .failure =>
        { s with error := some "Erro ao ler o arquivo. Por favor, tente novamente.",
                 selectedImage := none, result := none }

/-- App.tsx line 107: `handleDrop` calls `event.preventDefault()`
unconditionally, suppressing the browser default for the drop event. -/
def handleDrop_preventsDefault : Bool := true

/-- App.tsx lines 126-128: `handleDragOver` calls
`event.preventDefault()` unconditionally and changes no state. -/
def handleDragOver_preventsDefault : Bool := true

/-- Truthiness of the nullable `selectedImage` string, as used by the
guard `if (!selectedImage) return` and by the button disabling. -/
def imageTruthy : Option String → Bool
  | none => false
  | some t => decide (t ≠ "")

/-- App.tsx line 183: the analyze button is disabled exactly when
`!selectedImage || isLoading`. -/
def analyzeButtonDisabled (s : AppState) : Bool :=
  !(imageTruthy s.selectedImage) || s.isLoading

/-- Outcome of the fetch to the prediction endpoint, as observed by
`handleAnalyze`.  `networkError` is a rejected fetch promise (its Error
message); `aborted` is the rejection produced when the timeout fires and
`controller.abort()` cancels the request (the AbortError message);
`response` carries the HTTP status, the raw body text, and the result of
`response.json()` as either a parse error message or a JSON value. -/
inductive FetchOutcome where
  | networkError (msg : String)
  | aborted (msg : String)
  | response (status : Nat) (bodyText : String) (json : Except String Json)

/-- App.tsx line 100: the sentinel result stored on every failure. -/
def sentinelResult : Resultado :=
  { predicao := Json.str "Erro na Análise", probabilidade := Json.num 0 }

/-- The check `response.ok`: status in the range 200-299. -/
def responseOk (status : Nat) : Bool := 200 ≤ status && status ≤ 299

/-- App.tsx lines 97-103, the catch and finally blocks: store the thrown
message in `error`, store the sentinel result, clear the in-flight flag. -/
def failWith (s : AppState) (msg : String) : AppState :=
  { s with error := some msg, result := some sentinelResult, isLoading := false }

/-- App.tsx lines 49-51: the synchronous first phase of `handleAnalyze` after
the guard: set the in-flight flag, clear `error`, clear `result`. -/
def handleAnalyzeStart (s : AppState) : AppState :=
  { s with isLoading := true, error := none, result := none }

/-- App.tsx lines 76-103: processing of the fetch outcome.  A rejected
fetch (network error or abort) takes the catch path.  A non-2xx response
throws the server-error message embedding status and body text.  On 2xx,
a JSON parse failure throws the parse error; a parsed value that is
falsy or lacks a `predicao` or `probabilidade` field throws the
invalid-response message; otherwise the two fields are stored as the
result.  The finally block clears the in-flight flag on every path. -/
def handleAnalyzeFinish (s : AppState) (o : FetchOutcome) : AppState :=
  match o with
  | .networkError msg => failWith s msg
  | .aborted msg => failWith s msg
  | .response status bodyText json =>
    if !(responseOk status) then
      failWith s ("Erro do servidor (" ++ toString status ++ "): " ++ bodyText)
    else
      match json with
      | .error parseMsg => failWith s parseMsg
      | .ok data =>
        if !(data.truthy) || (data.getField "predicao").isNone
            || (data.getField "probabilidade").isNone then
          failWith s "Resposta inválida do servidor."
        else
          { s with
            result := some
              { predicao := (data.getField "predicao").getD Json.null,
                probabilidade := (data.getField "probabilidade").getD Json.null },
            isLoading := false }

/-- App.tsx lines 46-104, `handleAnalyze` as one state transition: the
guard returns unchanged when `selectedImage` is falsy; otherwise the
synchronous first phase runs and the fetch outcome is processed. -/
def handleAnalyze (s : AppState) (o : FetchOutcome) : AppState :=
  if !(imageTruthy s.selectedImage) then s
  else handleAnalyzeFinish (handleAnalyzeStart s) o

/-- JavaScript `Math.round`: rounds half toward positive infinity. -/
def mathRound (q : Rat) : Int := ⌊q + 1 / 2⌋

/-- App.tsx line 210: the rendered whole-percent confidence,
`Math.round(result.probabilidade * 100)`. -/
def renderConfidence (probabilidade : Rat) : Int := mathRound (probabilidade * 100)

/-- The multipart payload submitted by `handleAnalyze`: the form field
name, the filename, the MIME type attached to the blob, and the bytes
the blob holds. -/
structure Payload where
  fieldName : String
  fileName : String
  blobType : String
  payloadBytes : List Nat

/-- App.tsx lines 59-68: the decoded byte string is cut into slices of
1024 bytes which become the parts of the blob. -/
def chunkBytes (bytes : List Nat) : List (List Nat) :=
  if bytes = [] then []
  else bytes.take 1024 :: chunkBytes (bytes.drop 1024)
termination_by bytes.length
decreasing_by
  rename_i h
  simp only [List.length_drop]
  have : 0 < bytes.length := List.length_pos.mpr h
  omega

/-- App.tsx lines 53-71: the payload built from the decoded bytes of the
data URI.  `declaredMime` is the MIME type in the data-URI header (the
original upload type); the code drops it when it splits the URI at the
comma, so it is unused: the blob is always tagged image/png and appended
as field "file" with filename "image.png".  The blob content is the
concatenation of the 1024-byte chunks. -/
def buildPayload (_declaredMime : String) (byteCharacters : List Nat) : Payload :=
  { fieldName := "file"
    fileName := "image.png"
    blobType := "image/png"
    payloadBytes := (chunkBytes byteCharacters).flatten }

/-- C1: the file validator first rejects with the invalid-type message
exactly when the declared type is not one of image/jpeg, image/png,
image/jpg, image/webp; otherwise rejects with the file-too-large message
exactly when the size exceeds 10485760 bytes; otherwise returns valid.
Purity and the order of the two checks are captured by `validateFile`
being a Lean function whose two branches are tried in this order. -/
theorem validateFile_spec (declaredType : String) (size : Nat) :
    (validateFile declaredType size =
        some "Tipo de arquivo inválido. Por favor, envie uma imagem JPG, PNG ou WebP."
      ↔ declaredType ∉ ALLOWED_TYPES)
    ∧ (validateFile declaredType size =
        some "Arquivo muito grande. O tamanho máximo permitido é 5MB."
      ↔ declaredType ∈ ALLOWED_TYPES ∧ size > 10485760)
    ∧ (validateFile declaredType size = none
      ↔ declaredType ∈ ALLOWED_TYPES ∧ size ≤ 10485760) := by
  have hmax : MAX_FILE_SIZE = 10485760 := by norm_num [MAX_FILE_SIZE]
  by_cases hm : declaredType ∈ ALLOWED_TYPES
  · by_cases hs : size ≤ 10485760
    · simp [validateFile, hm, hmax, hs, Nat.not_lt.mpr hs]
    · simp [validateFile, hm, hmax, Nat.lt_of_not_le hs, hs, Nat.not_le.mp hs]
  · simp [validateFile, hm, hmax]

/-- Concatenating the 1024-byte chunks gives back the original bytes:
the chunking is only a buffering convenience and does not alter data. -/
theorem chunkBytes_flatten (bytes : List Nat) :
    (chunkBytes bytes).flatten = bytes := by
  induction bytes using chunkBytes.induct with
  | case1 => simp [chunkBytes]
  | case2 bs h ih =>
    rw [chunkBytes]
    simp [h, List.flatten, ih]

/-- C5: for every analysis request, whatever the declared MIME type of
the original upload, the wire payload is a blob tagged image/png,
appended as multipart field "file" with filename "image.png", and its
bytes are exactly the decoded bytes of the data URI: the chunked
rebuild concatenates to the original byte string, so nothing is
transcoded, only re-tagged. -/
theorem buildPayload_spec (declaredMime : String) (byteCharacters : List Nat) :
    buildPayload declaredMime byteCharacters =
      { fieldName := "file"
        fileName := "image.png"
        blobType := "image/png"
        payloadBytes := byteCharacters } := by
  simp [buildPayload, chunkBytes_flatten]

/-- C7 counterexample: a valid file whose FileReader read fails.  The
claim says every intake failure leaves the previous SelectedImage
untouched and clears the input control value; on a read error the code
does neither: the input value stays "xray.png" instead of becoming
empty, and the `onloadend` callback, firing after `onerror` with a null
read result, wipes the previous SelectedImage to null. -/
theorem upload_read_error_keeps_input_value :
    (handleImageUpload
        { selectedImage := some "olddata", result := none, isLoading := false,
          error := none, inputValue := "xray.png" }
        (some { declaredType := "image/png", size := 100 })
        ReadOutcome.failure).inputValue = "xray.png"
    ∧ "xray.png" ≠ ""
    ∧ (handleImageUpload
        { selectedImage := some "olddata", result := none, isLoading := false,
          error := none, inputValue := "xray.png" }
        (some { declaredType := "image/png", size := 100 })
        ReadOutcome.failure).selectedImage = none
    ∧ (some "olddata" : Option String) ≠ none := by
  refine ⟨rfl, by decide, rfl, by decide⟩

/-- C7 (amended): on a validation rejection (bad type or too large) the
previous SelectedImage is left untouched and the input control value is
cleared so the same file can be re-selected; on a read error the input
control value is left unchanged while the previous SelectedImage is
wiped to null, because the loadend callback fires after the error with
a null read result; SelectedImage receives the new data URI only on a
successful read of a file that passed validation. -/
theorem upload_intake_frame (s : AppState) (f : FileInfo) (read : ReadOutcome) :
    (validateFile f.declaredType f.size ≠ none →
      (handleImageUpload s (some f) read).selectedImage = s.selectedImage
        ∧ (handleImageUpload s (some f) read).inputValue = "")
    ∧ (validateFile f.declaredType f.size = none →
      (handleImageUpload s (some f) ReadOutcome.failure).selectedImage = none
        ∧ (handleImageUpload s (some f) ReadOutcome.failure).inputValue = s.inputValue)
    ∧ (∀ uri, validateFile f.declaredType f.size = none →
      (handleImageUpload s (some f) (ReadOutcome.success uri)).selectedImage = some uri
        ∧ (handleImageUpload s (some f) (ReadOutcome.success uri)).inputValue
          = s.inputValue) := by
  cases hv : validateFile f.declaredType f.size with
  | some msg =>
    refine ⟨?_, ?_, ?_⟩
    · intro _
      cases read <;> simp [handleImageUpload, hv]
    · intro h
      exact Option.noConfusion h
    · intro uri h
      exact Option.noConfusion h
  | none =>
    refine ⟨?_, ?_, ?_⟩
    · intro h
      exact absurd rfl h
    · intro _
      simp [handleImageUpload, hv]
    · intro uri _
      simp [handleImageUpload, hv]

/-- C7 witness: instantiates the frame theorem on concrete inputs.  A
too-large file is rejected, keeping the previous SelectedImage and
clearing the input value; a valid file whose read fails keeps the input
value "xr.png" but ends with SelectedImage wiped to none. -/
theorem upload_intake_frame_witness :
    (handleImageUpload
        { selectedImage := some "olddata", result := none, isLoading := false,
          error := none, inputValue := "big.png" }
        (some { declaredType := "image/png", size := 10485761 })
        ReadOutcome.failure).selectedImage = some "olddata"
    ∧ (handleImageUpload
        { selectedImage := some "olddata", result := none, isLoading := false,
          error := none, inputValue := "big.png" }
        (some { declaredType := "image/png", size := 10485761 })
        ReadOutcome.failure).inputValue = ""
    ∧ (handleImageUpload
        { selectedImage := some "olddata", result := none, isLoading := false,
          error := none, inputValue := "xr.png" }
        (some { declaredType := "image/png", size := 100 })
        ReadOutcome.failure).selectedImage = none
    ∧ (handleImageUpload
        { selectedImage := some "olddata", result := none, isLoading := false,
          error := none, inputValue := "xr.png" }
        (some { declaredType := "image/png", size := 100 })
        ReadOutcome.failure).inputValue = "xr.png" := by
  refine ⟨?_, ?_, ?_, ?_⟩
  · exact ((upload_intake_frame
      { selectedImage := some "olddata", result := none, isLoading := false,
        error := none, inputValue := "big.png" }
      { declaredType := "image/png", size := 10485761 }
      ReadOutcome.failure).1 (by decide)).1
  · exact ((upload_intake_frame
      { selectedImage := some "olddata", result := none, isLoading := false,
        error := none, inputValue := "big.png" }
      { declaredType := "image/png", size := 10485761 }
      ReadOutcome.failure).1 (by decide)).2
  · exact ((upload_intake_frame
      { selectedImage := some "olddata", result := none, isLoading := false,
        error := none, inputValue := "xr.png" }
      { declaredType := "image/png", size := 100 }
      ReadOutcome.failure).2.1 (by decide)).1
  · exact ((upload_intake_frame
      { selectedImage := some "olddata", result := none, isLoading := false,
        error := none, inputValue := "xr.png" }
      { declaredType := "image/png", size := 100 }
      ReadOutcome.failure).2.1 (by decide)).2

/-- C10: for every file-picker change event, `handleImageUpload` clears
ValidationError and AnalysisResult before any validation runs: the
stored result is none after every run of the handler, a no-file change
event leaves the state exactly with both cleared, and an invalid file
still ends with the result erased while SelectedImage is unchanged. -/
theorem upload_clears_result_and_error (s : AppState) (file : Option FileInfo)
    (read : ReadOutcome) :
    (handleImageUpload s file read).result = none
    ∧ (file = none →
      handleImageUpload s file read = { s with error := none, result := none })
    ∧ (∀ f, file = some f → validateFile f.declaredType f.size ≠ none →
      (handleImageUpload s file read).result = none
        ∧ (handleImageUpload s file read).selectedImage = s.selectedImage) := by
  refine ⟨?_, ?_, ?_⟩
  · cases file with
    | none => simp [handleImageUpload]
    | some f =>
      cases hv : validateFile f.declaredType f.size with
      | some msg => simp [handleImageUpload, hv]
      | none => cases read <;> simp [handleImageUpload, hv]
  · intro h; subst h; rfl
  · intro f hf hv
    subst hf
    cases hv2 : validateFile f.declaredType f.size with
    | some msg => simp [handleImageUpload, hv2]
    | none => exact absurd hv2 hv

/-- C10 witness: a previously displayed result is erased by a change
event that delivers an invalid file (a GIF), and by one that delivers no
file at all, while SelectedImage stays unchanged. -/
theorem upload_clears_result_and_error_witness :
    (handleImageUpload
        { selectedImage := some "olddata",
          result := some { predicao := Json.str "Tuberculose",
                           probabilidade := Json.num (87 / 100) },
          isLoading := false, error := none, inputValue := "a.gif" }
        (some { declaredType := "image/gif", size := 100 })
        ReadOutcome.failure).result = none
    ∧ (handleImageUpload
        { selectedImage := some "olddata",
          result := some { predicao := Json.str "Tuberculose",
                           probabilidade := Json.num (87 / 100) },
          isLoading := false, error := none, inputValue := "a.gif" }
        (some { declaredType := "image/gif", size := 100 })
        ReadOutcome.failure).selectedImage = some "olddata" := by
  exact (upload_clears_result_and_error
      { selectedImage := some "olddata",
        result := some { predicao := Json.str "Tuberculose",
                         probabilidade := Json.num (87 / 100) },
        isLoading := false, error := none, inputValue := "a.gif" }
      (some { declaredType := "image/gif", size := 100 })
      ReadOutcome.failure).2.2
    { declaredType := "image/gif", size := 100 } rfl (by decide)

/-- C9 counterexample: dropping an invalid file onto the drop zone does
not produce the same view state as picking the same file.  With a
previously displayed result, the picker change handler erases it, while
the drop handler leaves it on screen, so the resulting states differ in
the AnalysisResult component. -/
theorem drop_differs_from_picker :
    (handleDrop
        { selectedImage := some "olddata",
          result := some { predicao := Json.str "Tuberculose",
                           probabilidade := Json.num (87 / 100) },
          isLoading := false, error := none, inputValue := "a.gif" }
        (some { declaredType := "image/gif", size := 100 })
        ReadOutcome.failure).result
    ≠ (handleImageUpload
        { selectedImage := some "olddata",
          result := some { predicao := Json.str "Tuberculose",
                           probabilidade := Json.num (87 / 100) },
          isLoading := false, error := none, inputValue := "a.gif" }
        (some { declaredType := "image/gif", size := 100 })
        ReadOutcome.failure).result := by
  intro h
  rw [show (handleDrop
        { selectedImage := some "olddata",
          result := some { predicao := Json.str "Tuberculose",
                           probabilidade := Json.num (87 / 100) },
          isLoading := false, error := none, inputValue := "a.gif" }
        (some { declaredType := "image/gif", size := 100 })
        ReadOutcome.failure).result
      = some { predicao := Json.str "Tuberculose",
               probabilidade := Json.num (87 / 100) } from rfl] at h
  rw [show (handleImageUpload
        { selectedImage := some "olddata",
          result := some { predicao := Json.str "Tuberculose",
                           probabilidade := Json.num (87 / 100) },
          isLoading := false, error := none, inputValue := "a.gif" }
        (some { declaredType := "image/gif", size := 100 })
        ReadOutcome.failure).result = none from rfl] at h
  exact Option.noConfusion h

/-- C9 (amended): the drop intake runs the same validator and reader and
agrees with the picker intake on the resulting SelectedImage for every
dropped file, and both the drop and drag-over handlers suppress the
browser default behavior; but the full view states can differ, because
the drop handler does not pre-clear ValidationError and AnalysisResult
and does not clear the input control value on rejection. -/
theorem drop_selectedImage_agrees (s : AppState) (file : Option FileInfo)
    (read : ReadOutcome) :
    (handleDrop s file read).selectedImage
      = (handleImageUpload s file read).selectedImage
    ∧ handleDrop_preventsDefault = true
    ∧ handleDragOver_preventsDefault = true := by
  refine ⟨?_, rfl, rfl⟩
  cases file with
  | none => rfl
  | some f =>
    cases hv : validateFile f.declaredType f.size with
    | some msg => simp [handleDrop, handleImageUpload, hv]
    | none => cases read <;> simp [handleDrop, handleImageUpload, hv]

/-- C2: every failure of the analysis request (network error, timeout
abort, JSON parse failure, missing response field, non-2xx status) sets
the error message to the failure message and the result to the sentinel
pair (label "Erro na Análise", confidence 0); in the non-2xx case the
message embeds the HTTP status code and the raw body text. -/
theorem handleAnalyze_failure_spec (s : AppState)
    (hs : imageTruthy s.selectedImage = true) :
    (∀ m, (handleAnalyze s (FetchOutcome.networkError m)).error = some m
      ∧ (handleAnalyze s (FetchOutcome.networkError m)).result = some sentinelResult)
    ∧ (∀ m, (handleAnalyze s (FetchOutcome.aborted m)).error = some m
      ∧ (handleAnalyze s (FetchOutcome.aborted m)).result = some sentinelResult)
    ∧ (∀ status body json, responseOk status = false →
      (handleAnalyze s (FetchOutcome.response status body json)).error
          = some ("Erro do servidor (" ++ toString status ++ "): " ++ body)
        ∧ (handleAnalyze s (FetchOutcome.response status body json)).result
          = some sentinelResult)
    ∧ (∀ status body m, responseOk status = true →
      (handleAnalyze s (FetchOutcome.response status body (Except.error m))).error
          = some m
        ∧ (handleAnalyze s (FetchOutcome.response status body (Except.error m))).result
          = some sentinelResult)
    ∧ (∀ status body data, responseOk status = true →
      (data.truthy = false ∨ data.getField "predicao" = none
        ∨ data.getField "probabilidade" = none) →
      (handleAnalyze s (FetchOutcome.response status body (Except.ok data))).error
          = some "Resposta inválida do servidor."
        ∧ (handleAnalyze s (FetchOutcome.response status body (Except.ok data))).result
          = some sentinelResult) := by
  refine ⟨?_, ?_, ?_, ?_, ?_⟩
  · intro m
    simp [handleAnalyze, hs, handleAnalyzeStart, handleAnalyzeFinish, failWith]
  · intro m
    simp [handleAnalyze, hs, handleAnalyzeStart, handleAnalyzeFinish, failWith]
  · intro status body json hko
    simp [handleAnalyze, hs, handleAnalyzeStart, handleAnalyzeFinish, hko, failWith]
  · intro status body m hok
    simp [handleAnalyze, hs, handleAnalyzeStart, handleAnalyzeFinish, hok, failWith]
  · intro status body data hok hbad
    have hcond : (!(data.truthy) || (data.getField "predicao").isNone
        || (data.getField "probabilidade").isNone) = true := by
      rcases hbad with h | h | h <;>
        simp [h, Option.isNone_iff_eq_none]
    simp [handleAnalyze, hs, handleAnalyzeStart, handleAnalyzeFinish, hok, hcond,
      failWith]

/-- C2 witness: with an image selected, a network error "falha de rede"
lands in the error banner and the sentinel result, and a 404 response
with body "not found" produces the embedded server-error message. -/
theorem handleAnalyze_failure_spec_witness :
    (handleAnalyze
        { selectedImage := some "imgdata", result := none, isLoading := false,
          error := none, inputValue := "" }
        (FetchOutcome.networkError "falha de rede")).error = some "falha de rede"
    ∧ (handleAnalyze
        { selectedImage := some "imgdata", result := none, isLoading := false,
          error := none, inputValue := "" }
        (FetchOutcome.networkError "falha de rede")).result = some sentinelResult
    ∧ (handleAnalyze
        { selectedImage := some "imgdata", result := none, isLoading := false,
          error := none, inputValue := "" }
        (FetchOutcome.response 404 "not found" (Except.error "x"))).error
      = some "Erro do servidor (404): not found" := by
  refine ⟨?_, ?_, ?_⟩
  · exact ((handleAnalyze_failure_spec
      { selectedImage := some "imgdata", result := none, isLoading := false,
        error := none, inputValue := "" } (by decide)).1 "falha de rede").1
  · exact ((handleAnalyze_failure_spec
      { selectedImage := some "imgdata", result := none, isLoading := false,
        error := none, inputValue := "" } (by decide)).1 "falha de rede").2
  · exact ((handleAnalyze_failure_spec
      { selectedImage := some "imgdata", result := none, isLoading := false,
        error := none, inputValue := "" } (by decide)).2.2.1
      404 "not found" (Except.error "x") (by decide)).1

/-- C3: on a 2xx response whose parsed body is an object carrying a
string predicao and a numeric probabilidade, the result is exactly that
pair, the error stays cleared, and the rendered confidence is the
probability times 100 rounded to a whole percent (Mathlib round, which
rounds half up exactly like Math.round). -/
theorem handleAnalyze_success_spec (s : AppState) (status : Nat) (body : String)
    (fields : List (String × Json)) (label : String) (p : Rat)
    (hs : imageTruthy s.selectedImage = true)
    (hok : responseOk status = true)
    (hl : (Json.obj fields).getField "predicao" = some (Json.str label))
    (hp : (Json.obj fields).getField "probabilidade" = some (Json.num p)) :
    (handleAnalyze s
        (FetchOutcome.response status body (Except.ok (Json.obj fields)))).error = none
    ∧ (handleAnalyze s
        (FetchOutcome.response status body (Except.ok (Json.obj fields)))).result
      = some { predicao := Json.str label, probabilidade := Json.num p }
    ∧ renderConfidence p = round (p * 100) := by
  refine ⟨?_, ?_, ?_⟩
  · simp [handleAnalyze, hs, handleAnalyzeStart, handleAnalyzeFinish, hok,
      Json.truthy, hl, hp]
  · simp [handleAnalyze, hs, handleAnalyzeStart, handleAnalyzeFinish, hok,
      Json.truthy, hl, hp]
  · rw [renderConfidence, mathRound, round_eq]

/-- C3 witness: a 200 response with body object predicao "Tuberculose"
and probabilidade 0.87 yields exactly that result pair, no error, and a
rendered confidence of 87 percent. -/
theorem handleAnalyze_success_spec_witness :
    (handleAnalyze
        { selectedImage := some "imgdata", result := none, isLoading := false,
          error := none, inputValue := "" }
        (FetchOutcome.response 200 "body"
          (Except.ok (Json.obj
            [("predicao", Json.str "Tuberculose"),
             ("probabilidade", Json.num (87 / 100))])))).error = none
    ∧ (handleAnalyze
        { selectedImage := some "imgdata", result := none, isLoading := false,
          error := none, inputValue := "" }
        (FetchOutcome.response 200 "body"
          (Except.ok (Json.obj
            [("predicao", Json.str "Tuberculose"),
             ("probabilidade", Json.num (87 / 100))])))).result
      = some { predicao := Json.str "Tuberculose",
               probabilidade := Json.num (87 / 100) }
    ∧ renderConfidence (87 / 100) = 87 := by
  have h := handleAnalyze_success_spec
    { selectedImage := some "imgdata", result := none, isLoading := false,
      error := none, inputValue := "" }
    200 "body"
    [("predicao", Json.str "Tuberculose"), ("probabilidade", Json.num (87 / 100))]
    "Tuberculose" (87 / 100) (by decide) (by decide) rfl rfl
  refine ⟨h.1, h.2.1, ?_⟩
  rw [h.2.2]
  norm_num [round_eq]

/-- C4 counterexample: the claim says a 2xx body must contain a string
prediction field and a numeric probability field.  But the code only
checks presence, never type: a 200 response whose predicao and
probabilidade are both numbers is accepted and stored as the result with
no error, instead of failing. -/
theorem analyze_accepts_nonstring_fields :
    (handleAnalyze
        { selectedImage := some "imgdata", result := none, isLoading := false,
          error := none, inputValue := "" }
        (FetchOutcome.response 200 "body"
          (Except.ok (Json.obj
            [("predicao", Json.num 1), ("probabilidade", Json.num 2)])))).error = none
    ∧ (handleAnalyze
        { selectedImage := some "imgdata", result := none, isLoading := false,
          error := none, inputValue := "" }
        (FetchOutcome.response 200 "body"
          (Except.ok (Json.obj
            [("predicao", Json.num 1), ("probabilidade", Json.num 2)])))).result
      = some { predicao := Json.num 1, probabilidade := Json.num 2 } := by
  exact ⟨rfl, rfl⟩

/-- C4 (amended): on every 2xx response the client requires only that
the parsed JSON value is truthy and has fields named predicao and
probabilidade, of any type; exactly when that check fails the analysis
fails with the invalid-server-response message, and when the body is not
valid JSON the analysis fails with the parse error message. -/
theorem analyze_response_field_check (s : AppState) (status : Nat) (body : String)
    (json : Except String Json)
    (hs : imageTruthy s.selectedImage = true)
    (hok : responseOk status = true) :
    (∀ m, json = Except.error m →
      (handleAnalyze s (FetchOutcome.response status body json)).error = some m
        ∧ (handleAnalyze s (FetchOutcome.response status body json)).result
          = some sentinelResult)
    ∧ (∀ data, json = Except.ok data →
      ((handleAnalyze s (FetchOutcome.response status body json)).error
          = some "Resposta inválida do servidor."
        ↔ data.truthy = false ∨ data.getField "predicao" = none
            ∨ data.getField "probabilidade" = none)) := by
  constructor
  · intro m hm
    subst hm
    simp [handleAnalyze, hs, handleAnalyzeStart, handleAnalyzeFinish, hok, failWith]
  · intro data hd
    subst hd
    by_cases hc : (!(data.truthy) || (data.getField "predicao").isNone
        || (data.getField "probabilidade").isNone) = true
    · have hbad : data.truthy = false ∨ data.getField "predicao" = none
          ∨ data.getField "probabilidade" = none := by
        simpa [Option.isNone_iff_eq_none, or_assoc] using hc
      simp [handleAnalyze, hs, handleAnalyzeStart, handleAnalyzeFinish, hok, hc,
        failWith, hbad]
    · have hgood : ¬(data.truthy = false ∨ data.getField "predicao" = none
          ∨ data.getField "probabilidade" = none) := by
        intro hbad
        apply hc
        rcases hbad with h | h | h <;> simp [h, Option.isNone_iff_eq_none]
      have hc2 : (!(data.truthy) || (data.getField "predicao").isNone
          || (data.getField "probabilidade").isNone) = false := by
        revert hc
        cases (!(data.truthy) || (data.getField "predicao").isNone
          || (data.getField "probabilidade").isNone) <;> simp
      simp [handleAnalyze, hs, handleAnalyzeStart, handleAnalyzeFinish, hok, hc2,
        hgood]

/-- C4 witness: a 200 response whose body is the JSON value true (truthy
but without the fields) fails with the invalid-server-response message,
and a 200 response whose body is not valid JSON fails with the parse
error message. -/
theorem analyze_response_field_check_witness :
    ((handleAnalyze
        { selectedImage := some "imgdata", result := none, isLoading := false,
          error := none, inputValue := "" }
        (FetchOutcome.response 200 "true" (Except.ok (Json.bool true)))).error
      = some "Resposta inválida do servidor.")
    ∧ (handleAnalyze
        { selectedImage := some "imgdata", result := none, isLoading := false,
          error := none, inputValue := "" }
        (FetchOutcome.response 200 "<html>" (Except.error "Unexpected token"))).error
      = some "Unexpected token" := by
  constructor
  · exact ((analyze_response_field_check
      { selectedImage := some "imgdata", result := none, isLoading := false,
        error := none, inputValue := "" }
      200 "true" (Except.ok (Json.bool true)) (by decide) (by decide)).2
      (Json.bool true) rfl).mpr (Or.inr (Or.inl rfl))
  · exact (((analyze_response_field_check
      { selectedImage := some "imgdata", result := none, isLoading := false,
        error := none, inputValue := "" }
      200 "<html>" (Except.error "Unexpected token") (by decide) (by decide)).1
      "Unexpected token" rfl).1)

/-- C6: the timeout constant is exactly 300000 ms, and the abort raised
when it expires takes the common failure path: the abort message lands
in the error state, the result becomes the sentinel pair and the
in-flight flag is cleared. -/
theorem timeout_abort_spec (s : AppState) (m : String)
    (hs : imageTruthy s.selectedImage = true) :
    API_TIMEOUT = 300000
    ∧ (handleAnalyze s (FetchOutcome.aborted m)).error = some m
    ∧ (handleAnalyze s (FetchOutcome.aborted m)).result = some sentinelResult
    ∧ (handleAnalyze s (FetchOutcome.aborted m)).isLoading = false := by
  refine ⟨rfl, ?_, ?_, ?_⟩ <;>
    simp [handleAnalyze, hs, handleAnalyzeStart, handleAnalyzeFinish, failWith]

/-- C6 witness: with an image selected, an abort with the AbortError
message produces the error banner, the sentinel result and a cleared
in-flight flag, under the 300000 ms timeout constant. -/
theorem timeout_abort_spec_witness :
    API_TIMEOUT = 300000
    ∧ (handleAnalyze
        { selectedImage := some "imgdata", result := none, isLoading := false,
          error := none, inputValue := "" }
        (FetchOutcome.aborted "The user aborted a request.")).error
      = some "The user aborted a request."
    ∧ (handleAnalyze
        { selectedImage := some "imgdata", result := none, isLoading := false,
          error := none, inputValue := "" }
        (FetchOutcome.aborted "The user aborted a request.")).result
      = some sentinelResult := by
  have h := timeout_abort_spec
    { selectedImage := some "imgdata", result := none, isLoading := false,
      error := none, inputValue := "" }
    "The user aborted a request." (by decide)
  exact ⟨h.1, h.2.1, h.2.2.1⟩

/-- C8: the in-flight flag is set at the start of every analysis run
past the guard and is cleared on every outcome before the cycle ends,
and the analyze button is disabled whenever no image is selected or the
flag is set, so a second request cannot be started while one is
outstanding. -/
theorem loading_flag_spec (s : AppState) (o : FetchOutcome)
    (hs : imageTruthy s.selectedImage = true) :
    (handleAnalyzeStart s).isLoading = true
    ∧ (handleAnalyze s o).isLoading = false
    ∧ (∀ s2 : AppState, s2.isLoading = true → analyzeButtonDisabled s2 = true)
    ∧ (∀ s2 : AppState, s2.selectedImage = none → analyzeButtonDisabled s2 = true) := by
  refine ⟨rfl, ?_, ?_, ?_⟩
  · cases o with
    | networkError m =>
      simp [handleAnalyze, hs, handleAnalyzeStart, handleAnalyzeFinish, failWith]
    | aborted m =>
      simp [handleAnalyze, hs, handleAnalyzeStart, handleAnalyzeFinish, failWith]
    | response status body json =>
      by_cases hok : responseOk status = true
      · cases json with
        | error m =>
          simp [handleAnalyze, hs, handleAnalyzeStart, handleAnalyzeFinish, hok,
            failWith]
        | ok data =>
          by_cases hc : (!(data.truthy) || (data.getField "predicao").isNone
              || (data.getField "probabilidade").isNone) = true
          · simp [handleAnalyze, hs, handleAnalyzeStart, handleAnalyzeFinish, hok,
              hc, failWith]
          · have hc2 : (!(data.truthy) || (data.getField "predicao").isNone
                || (data.getField "probabilidade").isNone) = false := by
              revert hc
              cases (!(data.truthy) || (data.getField "predicao").isNone
                || (data.getField "probabilidade").isNone) <;> simp
            simp [handleAnalyze, hs, handleAnalyzeStart, handleAnalyzeFinish, hok,
              hc2, failWith]
      · have hok2 : responseOk status = false := by
          revert hok
          cases responseOk status <;> simp
        simp [handleAnalyze, hs, handleAnalyzeStart, handleAnalyzeFinish, hok2,
          failWith]
  · intro s2 h2
    simp [analyzeButtonDisabled, h2]
  · intro s2 h2
    simp [analyzeButtonDisabled, h2, imageTruthy]

/-- C8 witness: with an image selected the start phase raises the flag,
a network-error outcome ends with the flag cleared, and the button is
disabled both while loading and when no image is selected. -/
theorem loading_flag_spec_witness :
    (handleAnalyzeStart
      { selectedImage := some "imgdata", result := none, isLoading := false,
        error := none, inputValue := "" }).isLoading = true
    ∧ (handleAnalyze
        { selectedImage := some "imgdata", result := none, isLoading := false,
          error := none, inputValue := "" }
        (FetchOutcome.networkError "falhou")).isLoading = false
    ∧ analyzeButtonDisabled
        { selectedImage := some "imgdata", result := none, isLoading := true,
          error := none, inputValue := "" } = true
    ∧ analyzeButtonDisabled
        { selectedImage := none, result := none, isLoading := false,
          error := none, inputValue := "" } = true := by
  have h := loading_flag_spec
    { selectedImage := some "imgdata", result := none, isLoading := false,
      error := none, inputValue := "" }
    (FetchOutcome.networkError "falhou") (by decide)
  exact ⟨h.1, h.2.1,
    h.2.2.1 { selectedImage := some "imgdata", result := none, isLoading := true,
              error := none, inputValue := "" } rfl,
    h.2.2.2 { selectedImage := none, result := none, isLoading := false,
              error := none, inputValue := "" } rfl⟩

end TBApp
